import Mathlib

/-!
Verification development for the Cyclone (AstroAlert) repository.

The definitions below are shallow embeddings of the Python source:
* `src/main_astroalert_fixed.py` — legacy fusion
  (`generate_combined_risk_assessment`, `_generate_recommendations`);
* `src/enhanced_analysis/enhanced_astroalert.py` — enhanced fusion
  (`_calculate_base_ai_risk`, `_determine_enhanced_risk_level`,
  `generate_enhanced_combined_assessment`);
* `src/monitoring_service.py` — alert evaluation
  (`evaluate_alerts`, `trigger_alert`, `manual_check_location`);
* `src/database.py` and `src/app_enhanced.py` — location registration
  (`db.add_location`, the `/api/locations` POST route).

Python floats are modelled as `ℚ` (every constant in the relevant code is a
small decimal, and no float rounding is at stake in the claims), dicts with
`.get(key, default)` access become structures whose fields carry the value
the code would read (a failed adapter produces the defaulted values), and
the wall clock read by `datetime.datetime.now()` becomes an explicit
`now : String` argument.
-/

namespace Cyclone

/-- Fields of the detection-results dict that `generate_combined_risk_assessment`
reads via `.get` (src/main_astroalert_fixed.py:171-216).  A failed or empty
detection run carries `total_cyclones = 0` and `avg_confidence = 0`, matching
the defaults the code supplies. -/
structure DetectionResults where
  total_cyclones : Nat
  avg_confidence : ℚ
  deriving DecidableEq, Repr

/-- The `vrs_analysis` sub-dict of the astrology results
(src/main_astroalert_fixed.py:179,209-211).  The error path of
`calculate_astrology_risk` (lines 144-154) produces
`vrs_score = 0`, `risk_level = "UNKNOWN"`, `risk_factors = []`. -/
structure VrsAnalysis where
  vrs_score : ℚ
  risk_level : String
  risk_factors : List String
  deriving DecidableEq, Repr

/-- Astrology results as consumed by the fusion. -/
structure AstrologyResults where
  vrs_analysis : VrsAnalysis
  deriving DecidableEq, Repr

/-- The AI risk contribution computed at src/main_astroalert_fixed.py:169-177. -/
def ai_risk (d : DetectionResults) : ℚ :=
  if d.total_cyclones > 0 then
    if d.avg_confidence > 8/10 then 30
    else if d.avg_confidence > 5/10 then 20
    else if d.avg_confidence > 2/10 then 10
    else 0
  else 0

/-- `combined_risk = min(100, (ai_risk + astrology_risk) / 2)`
(src/main_astroalert_fixed.py:183). -/
def combined_risk (d : DetectionResults) (a : AstrologyResults) : ℚ :=
  min 100 ((ai_risk d + a.vrs_analysis.vrs_score) / 2)

/-- The final-risk-level ladder at src/main_astroalert_fixed.py:186-198. -/
def final_risk_level (c : ℚ) : String :=
  if c ≥ 70 then "EXTREME"
  else if c ≥ 50 then "HIGH"
  else if c ≥ 30 then "MODERATE"
  else "LOW"

/-- The action string chosen together with the level
(src/main_astroalert_fixed.py:186-198). -/
def action_required (c : ℚ) : String :=
  if c ≥ 70 then "Immediate evacuation and emergency response required"
  else if c ≥ 50 then "High alert - prepare for severe weather conditions"
  else if c ≥ 30 then "Moderate risk - maintain preparedness and monitor conditions"
  else "Low risk - standard monitoring recommended"

/-- `_generate_recommendations` (src/main_astroalert_fixed.py:228-266). -/
def generate_recommendations (risk_level : String) : List String :=
  if risk_level = "EXTREME" then
    ["🚨 IMMEDIATE EVACUATION of coastal areas",
     "🆘 Activate emergency response protocols",
     "📡 Issue highest level weather warnings",
     "🏥 Prepare emergency medical facilities",
     "🚁 Deploy rescue and relief teams"]
  else if risk_level = "HIGH" then
    ["⚠️ Issue high-level weather alerts",
     "🏠 Prepare evacuation plans",
     "📻 Activate emergency communication systems",
     "🚒 Pre-position emergency response teams",
     "🏥 Alert medical facilities"]
  else if risk_level = "MODERATE" then
    ["📢 Issue weather advisories",
     "🏠 Review evacuation procedures",
     "📡 Monitor weather conditions closely",
     "🚒 Prepare emergency response teams",
     "📱 Keep public informed of developments"]
  else
    ["📊 Continue standard weather monitoring",
     "📱 Maintain public awareness programs",
     "🏠 Regular preparedness reviews",
     "📡 Monitor satellite imagery",
     "📋 Document conditions for future reference"]

/-- The `ai_detection` section of the combined assessment
(src/main_astroalert_fixed.py:202-206). -/
structure AiDetectionSection where
  cyclones_detected : Nat
  average_confidence : ℚ
  ai_risk_score : ℚ
  deriving DecidableEq, Repr

/-- The `astrology_analysis` section (src/main_astroalert_fixed.py:207-211). -/
structure AstrologySection where
  vrs_score : ℚ
  risk_level : String
  risk_factors : List String
  deriving DecidableEq, Repr

/-- The `combined_assessment` section (src/main_astroalert_fixed.py:212-217). -/
structure CombinedSection where
  combined_risk_score : ℚ
  final_risk_level : String
  action_required : String
  confidence : String
  deriving DecidableEq, Repr

/-- The full dict returned by `generate_combined_risk_assessment`
(src/main_astroalert_fixed.py:200-220). -/
structure CombinedAssessment where
  timestamp : String
  ai_detection : AiDetectionSection
  astrology_analysis : AstrologySection
  combined_assessment : CombinedSection
  recommendations : List String
  deriving DecidableEq, Repr

/-- `generate_combined_risk_assessment` (src/main_astroalert_fixed.py:156-226).
`now` is the value `datetime.datetime.now().isoformat()` read at line 201. -/
def generate_combined_risk_assessment (now : String)
    (d : DetectionResults) (a : AstrologyResults) : CombinedAssessment :=
  let airisk := ai_risk d
  let astrology_risk := a.vrs_analysis.vrs_score
  let combined := min 100 ((airisk + astrology_risk) / 2)
  { timestamp := now
    ai_detection :=
      { cyclones_detected := d.total_cyclones
        average_confidence := d.avg_confidence
        ai_risk_score := airisk }
    astrology_analysis :=
      { vrs_score := astrology_risk
        risk_level := a.vrs_analysis.risk_level
        risk_factors := a.vrs_analysis.risk_factors }
    combined_assessment :=
      { combined_risk_score := combined
        final_risk_level := final_risk_level combined
        action_required := action_required combined
        confidence := if d.total_cyclones > 0 then "High" else "Medium" }
    recommendations := generate_recommendations (final_risk_level combined) }

/-! Monitoring service (src/monitoring_service.py). -/

/-- The `risk_levels` dict lookup with default, as used at
src/monitoring_service.py:128-132: `{'LOW': 1, 'MODERATE': 2, 'HIGH': 3,
'EXTREME': 4}.get(key, default)`. -/
def riskLevelRank (s : String) (dflt : Nat) : Nat :=
  if s = "LOW" then 1
  else if s = "MODERATE" then 2
  else if s = "HIGH" then 3
  else if s = "EXTREME" then 4
  else dflt

/-- The alert decision of `evaluate_alerts` (src/monitoring_service.py:134-137):
trigger iff `current_level >= threshold_level`, where `current_level` defaults
to 0 and `threshold_level` to 2 for unknown strings. -/
def shouldTriggerAlert (current_risk alert_threshold : String) : Bool :=
  riskLevelRank alert_threshold 2 ≤ riskLevelRank current_risk 0

/-- The location fields `evaluate_alerts`/`trigger_alert` read. -/
structure MonLocation where
  id : String
  user_id : String
  name : String
  alert_threshold : String
  deriving DecidableEq, Repr

/-- An alert row as inserted by `db.create_alert` (src/database.py:285-298);
only the fields the claims mention. -/
structure Alert where
  location_id : String
  user_id : String
  analysis_id : String
  risk_level : String
  deriving DecidableEq, Repr

/-- `trigger_alert` (src/monitoring_service.py:139-174): look up the user
(`db.get_user`); if absent, return without creating anything; otherwise
`db.create_alert` appends a new alert row referencing `analysis_id`.
`users` is the set of user ids present in the database. -/
def trigger_alert (users : List String) (alerts : List Alert)
    (loc : MonLocation) (analysis_id risk_level : String) : List Alert :=
  if users.contains loc.user_id then
    alerts ++ [⟨loc.id, loc.user_id, analysis_id, risk_level⟩]
  else alerts

/-- `evaluate_alerts` (src/monitoring_service.py:120-137): compare the
assessment tier with the location threshold and call `trigger_alert` when it
meets or exceeds it.  There is no lookup of existing alerts for
`analysis_id` anywhere in the body. -/
def evaluate_alerts (users : List String) (alerts : List Alert)
    (loc : MonLocation) (current_risk analysis_id : String) : List Alert :=
  if shouldTriggerAlert current_risk loc.alert_threshold then
    trigger_alert users alerts loc analysis_id current_risk
  else alerts

/-- The four risk tiers of the spec's `tierRank` order
LOW < MODERATE < HIGH < EXTREME. -/
inductive Tier
  | LOW | MODERATE | HIGH | EXTREME
  deriving DecidableEq, Repr

/-- The string the service uses for each tier. -/
def Tier.toStr : Tier → String
  | .LOW => "LOW"
  | .MODERATE => "MODERATE"
  | .HIGH => "HIGH"
  | .EXTREME => "EXTREME"

/-- `tierRank`, the fixed total order of the spec (any strictly monotone
assignment represents it; this one matches the service's dict). -/
def Tier.rank : Tier → Nat
  | .LOW => 1
  | .MODERATE => 2
  | .HIGH => 3
  | .EXTREME => 4

/-- Whether the check cycle invoked for a location succeeds or raises, as seen
by the `try` in `manual_check_location`. -/
inductive CheckOutcome
  | ok
  | exc (msg : String)
  deriving DecidableEq, Repr

/-- The dict returned by `manual_check_location`
(src/monitoring_service.py:176-188): `{'error': 'Location not found or not
active'}`, `{'success': True, 'message': ...}`, or `{'error': str(e)}`. -/
inductive ManualCheckResult
  | notFound
  | success (message : String)
  | errorMsg (e : String)
  deriving DecidableEq, Repr

/-- `manual_check_location` (src/monitoring_service.py:176-188).  The body
finds the location among the active ones and immediately runs
`check_location`; it acquires no lock and consults no in-flight state, so the
`inFlight` argument — recording whether another check cycle on the same
location is currently mid-flight in the claim's scenario — is unused, exactly
as the source reads no such state.  The returned `Bool` records whether
`check_location` was invoked. -/
def manual_check_location (activeLocations : List MonLocation) (_inFlight : Bool)
    (location_id : String) (outcome : CheckOutcome) : ManualCheckResult × Bool :=
  match activeLocations.find? (fun l => l.id == location_id) with
  | none => (.notFound, false)
  | some loc =>
    match outcome with
    | .ok => (.success ("Successfully checked " ++ loc.name), true)
    | .exc e => (.errorMsg e, true)

/-! Location registration (src/database.py, src/app_enhanced.py). -/

/-- A row of the `locations` table (the columns `db.add_location` inserts,
src/database.py:174-187). -/
structure LocationRow where
  id : String
  user_id : String
  name : String
  latitude : ℚ
  longitude : ℚ
  alert_threshold : String
  deriving DecidableEq, Repr

/-- `db.add_location` (src/database.py:174-187): generates an id and inserts
unconditionally — no coordinate check here.  `newId` models
`str(uuid.uuid4())`. -/
def db_add_location (locations : List LocationRow) (newId user_id name : String)
    (latitude longitude : ℚ) (alert_threshold : String) :
    List LocationRow × String :=
  (locations ++ [⟨newId, user_id, name, latitude, longitude, alert_threshold⟩], newId)

/-- Responses of the `/api/locations` POST route. -/
inductive ApiResponse
  | success (location_id : String)
  | badRequest (err : String)
  deriving DecidableEq, Repr

/-- The `/api/locations` POST route `add_location`
(src/app_enhanced.py:344-384): validate `-90 <= lat <= 90` and
`-180 <= lng <= 180`; on failure return 400 `'Invalid coordinates'` without
touching the database; otherwise call `db.add_location`. -/
def api_add_location (locations : List LocationRow) (newId user_id name : String)
    (lat lng : ℚ) (alert_threshold : String) : ApiResponse × List LocationRow :=
  if ¬(-90 ≤ lat ∧ lat ≤ 90) ∨ ¬(-180 ≤ lng ∧ lng ≤ 180) then
    (.badRequest "Invalid coordinates", locations)
  else
    let r := db_add_location locations newId user_id name lat lng alert_threshold
    (.success r.2, r.1)

/-! Enhanced fusion (src/enhanced_analysis/enhanced_astroalert.py). -/

/-- Detection-results fields read by the enhanced path
(enhanced_astroalert.py:184-190,217-236). -/
structure EnhDetectionResults where
  total_cyclones : Nat
  avg_confidence : ℚ
  detection_quality : String
  deriving DecidableEq, Repr

/-- `_calculate_base_ai_risk` (enhanced_astroalert.py:217-236): 0 when nothing
was detected, otherwise the quality-score dict lookup with default 0. -/
def calculate_base_ai_risk (d : EnhDetectionResults) : ℚ :=
  if d.total_cyclones = 0 then 0
  else if d.detection_quality = "EXCELLENT" then 50
  else if d.detection_quality = "GOOD" then 40
  else if d.detection_quality = "MODERATE" then 30
  else if d.detection_quality = "FAIR" then 22
  else if d.detection_quality = "WEAK_MULTIPLE" then 15
  else if d.detection_quality = "WEAK_MANY" then 10
  else if d.detection_quality = "POOR" then 5
  else 0

/-- An `intensity_prediction` entry of the enhanced meteorological analysis
(enhanced_astroalert.py:258-264). -/
structure IntensityPrediction where
  prediction : ℚ
  confidence : ℚ
  deriving DecidableEq, Repr

/-- One element of `enhanced_analysis` (enhanced_astroalert.py:257-264). -/
structure EnhAnalysisEntry where
  intensity_prediction : Option IntensityPrediction
  deriving DecidableEq, Repr

/-- The `overall_assessment` fields read by `_analyze_meteorological_risk`
(enhanced_astroalert.py:290,299). -/
structure OverallAssessment where
  total_eyes_detected : Nat
  overall_risk_level : String
  deriving DecidableEq, Repr

/-- A valid (non-error) `enhanced_meteorological` input. -/
structure EnhancedMeteorological where
  overall_assessment : OverallAssessment
  enhanced_analysis : List EnhAnalysisEntry
  deriving DecidableEq, Repr

/-- The insight fields of `_analyze_meteorological_risk` that
`_determine_enhanced_risk_level` later reads (enhanced_astroalert.py:266-312,
352-368). -/
structure MeteoInsights where
  meteorological_risk_score : ℚ
  max_intensity_category : ℚ
  eyes_detected : Nat
  threat_indicators : List String
  deriving DecidableEq, Repr

/-- `max_intensity` of `_analyze_meteorological_risk`
(enhanced_astroalert.py:257-264): max over present predictions, starting
from 0. -/
def max_intensity (entries : List EnhAnalysisEntry) : ℚ :=
  entries.foldl
    (fun acc e =>
      match e.intensity_prediction with
      | some p => max acc p.prediction
      | none => acc)
    0

/-- The intensity-risk ladder of `_analyze_meteorological_risk`
(enhanced_astroalert.py:266-277). -/
def intensity_risk (m : ℚ) : ℚ :=
  if m ≥ 5 then 45
  else if m ≥ 4 then 35
  else if m ≥ 3 then 25
  else if m ≥ 2 then 15
  else if m ≥ 1 then 5
  else 0

/-- The structural-risk dict lookup (enhanced_astroalert.py:299-305). -/
def structural_risk (overall_risk_level : String) : ℚ :=
  if overall_risk_level = "High" then 20
  else if overall_risk_level = "Moderate" then 15
  else if overall_risk_level = "Low to Moderate" then 10
  else if overall_risk_level = "Low" then 5
  else 0

/-- `_analyze_meteorological_risk` (enhanced_astroalert.py:238-320), reduced to
the fields consumed downstream: the total risk score
`min(100, intensity_risk + eye_risk + structural_risk)` and the insights. -/
def analyze_meteorological_risk (m : EnhancedMeteorological) : MeteoInsights :=
  let mi := max_intensity m.enhanced_analysis
  let irisk := intensity_risk mi
  let eyes := m.overall_assessment.total_eyes_detected
  let erisk : ℚ := if eyes > 0 then 15 else 0
  let srisk := structural_risk m.overall_assessment.overall_risk_level
  { meteorological_risk_score := min 100 (irisk + erisk + srisk)
    max_intensity_category := mi
    eyes_detected := eyes
    threat_indicators :=
      if eyes > 0 then ["Eye wall structure detected"] else [] }

/-- The dict returned by `_determine_enhanced_risk_level`
(enhanced_astroalert.py:322-378). -/
structure RiskLevelInfo where
  level : String
  category : String
  action_required : String
  key_findings : List String
  deriving DecidableEq, Repr

/-- The level/category/action ladder of `_determine_enhanced_risk_level`
(enhanced_astroalert.py:325-348). -/
def enhanced_level_ladder (c : ℚ) : String × String × String :=
  if c ≥ 75 then ("EXTREME", "CATASTROPHIC_THREAT",
    "IMMEDIATE EVACUATION - Life-threatening conditions expected")
  else if c ≥ 60 then ("VERY_HIGH", "MAJOR_THREAT",
    "Urgent evacuation preparations - Destructive conditions likely")
  else if c ≥ 45 then ("HIGH", "SIGNIFICANT_THREAT",
    "High alert - Prepare for severe weather conditions")
  else if c ≥ 30 then ("MODERATE", "MODERATE_THREAT",
    "Moderate risk - Enhanced monitoring and preparedness required")
  else if c ≥ 15 then ("LOW_TO_MODERATE", "MINOR_THREAT",
    "Low to moderate risk - Standard preparedness recommended")
  else ("LOW", "MINIMAL_THREAT", "Low risk - Continue standard monitoring")

/-- The key findings of `_determine_enhanced_risk_level`
(enhanced_astroalert.py:350-371); `none` insights model the empty dict of the
fallback branch. -/
def enhanced_key_findings (insights : Option MeteoInsights) : List String :=
  let findings :=
    match insights with
    | none => []
    | some ins =>
      (if ins.max_intensity_category ≥ 3 then
        ["Major hurricane intensity detected (Category " ++
          toString ins.max_intensity_category ++ ")"]
      else if ins.max_intensity_category ≥ 1 then
        ["Tropical cyclone intensity detected (Category " ++
          toString ins.max_intensity_category ++ ")"]
      else []) ++
      (if ins.eyes_detected > 0 then ["Well-defined eye wall structure present"]
       else []) ++
      ins.threat_indicators
  if findings.isEmpty then
    ["Analysis based on satellite imagery and astrological factors"]
  else findings

/-- `_determine_enhanced_risk_level` (enhanced_astroalert.py:322-378). -/
def determine_enhanced_risk_level (c : ℚ) (insights : Option MeteoInsights) :
    RiskLevelInfo :=
  let ladder := enhanced_level_ladder c
  { level := ladder.1
    category := ladder.2.1
    action_required := ladder.2.2
    key_findings := enhanced_key_findings insights }

/-- The `enhanced_combined_assessment` section of
`generate_enhanced_combined_assessment` (enhanced_astroalert.py:197-205). -/
structure EnhancedCombinedSection where
  combined_risk_score : ℚ
  final_risk_level : String
  threat_category : String
  confidence : String
  key_findings : List String
  action_required : String
  deriving DecidableEq, Repr

/-- `generate_enhanced_combined_assessment` (enhanced_astroalert.py:141-215),
reduced to its `enhanced_combined_assessment` section.  `none` models a falsy
or error-carrying `enhanced_meteorological`, which sends the code down the
fallback `(ai_risk + astrology_risk) / 2` branch with `Medium` confidence. -/
def generate_enhanced_combined_assessment (d : EnhDetectionResults)
    (a : AstrologyResults) (enhanced_meteorological : Option EnhancedMeteorological) :
    EnhancedCombinedSection :=
  let airisk := calculate_base_ai_risk d
  let astrology_risk := a.vrs_analysis.vrs_score
  match enhanced_meteorological with
  | some m =>
    let insights := analyze_meteorological_risk m
    let combined :=
      min 100 (airisk * (35/100) + insights.meteorological_risk_score * (40/100) +
        astrology_risk * (25/100))
    let info := determine_enhanced_risk_level combined (some insights)
    { combined_risk_score := combined
      final_risk_level := info.level
      threat_category := info.category
      confidence := "High"
      key_findings := info.key_findings
      action_required := info.action_required }
  | none =>
    let combined := min 100 ((airisk + astrology_risk) / 2)
    let info := determine_enhanced_risk_level combined none
    { combined_risk_score := combined
      final_risk_level := info.level
      threat_category := info.category
      confidence := "Medium"
      key_findings := info.key_findings
      action_required := info.action_required }

end Cyclone

namespace Cyclone

/-- The tier table as the spec words it (§4.1): inclusive lower bounds,
≥70 EXTREME, ≥50 HIGH, ≥30 MODERATE, else LOW.  Stated from the spec to be
compared with the code's `final_risk_level`. -/
def specTierTable (c : ℚ) : String :=
  if 70 ≤ c then "EXTREME"
  else if 50 ≤ c then "HIGH"
  else if 30 ≤ c then "MODERATE"
  else "LOW"

lemma ai_risk_nonneg (d : DetectionResults) : 0 ≤ ai_risk d := by
  unfold ai_risk; split_ifs <;> norm_num

lemma ai_risk_le_30 (d : DetectionResults) : ai_risk d ≤ 30 := by
  unfold ai_risk; split_ifs <;> norm_num

lemma gen_score (now : String) (d : DetectionResults) (a : AstrologyResults) :
    (generate_combined_risk_assessment now d a).combined_assessment.combined_risk_score =
      combined_risk d a := rfl

lemma gen_level (now : String) (d : DetectionResults) (a : AstrologyResults) :
    (generate_combined_risk_assessment now d a).combined_assessment.final_risk_level =
      final_risk_level (combined_risk d a) := rfl

lemma gen_confidence (now : String) (d : DetectionResults) (a : AstrologyResults) :
    (generate_combined_risk_assessment now d a).combined_assessment.confidence =
      (if d.total_cyclones > 0 then "High" else "Medium") := rfl

lemma final_risk_level_mem (c : ℚ) :
    final_risk_level c ∈ (["LOW", "MODERATE", "HIGH", "EXTREME"] : List String) := by
  unfold final_risk_level; split_ifs <;> simp

lemma final_risk_level_eq_spec (c : ℚ) : final_risk_level c = specTierTable c := rfl

lemma combined_risk_nonneg (d : DetectionResults) (a : AstrologyResults)
    (h3 : 0 ≤ a.vrs_analysis.vrs_score) : 0 ≤ combined_risk d a := by
  unfold combined_risk
  have := ai_risk_nonneg d
  refine le_min (by norm_num) ?_
  have : 0 ≤ ai_risk d + a.vrs_analysis.vrs_score := by linarith
  linarith

lemma combined_risk_le_100 (d : DetectionResults) (a : AstrologyResults) :
    combined_risk d a ≤ 100 := min_le_left _ _

end Cyclone

namespace Cyclone

/-- C1: on every valid input pair (`total_cyclones ≥ 0` holds by the `Nat`
type; `avg_confidence ∈ [0,1]`; `vrs_score ∈ [0,100]`), the legacy fusion
returns a combined score in `[0,100]` and a final level in
LOW/MODERATE/HIGH/EXTREME, assigned exactly by the spec's inclusive
lower-bound table (≥70 EXTREME, ≥50 HIGH, ≥30 MODERATE, else LOW). -/
theorem fuse_score_range_and_tier_table (now : String) (d : DetectionResults)
    (a : AstrologyResults) (_h1 : 0 ≤ d.avg_confidence) (_h2 : d.avg_confidence ≤ 1)
    (h3 : 0 ≤ a.vrs_analysis.vrs_score) (_h4 : a.vrs_analysis.vrs_score ≤ 100) :
    0 ≤ (generate_combined_risk_assessment now d a).combined_assessment.combined_risk_score ∧
    (generate_combined_risk_assessment now d a).combined_assessment.combined_risk_score ≤ 100 ∧
    (generate_combined_risk_assessment now d a).combined_assessment.final_risk_level ∈
      (["LOW", "MODERATE", "HIGH", "EXTREME"] : List String) ∧
    (generate_combined_risk_assessment now d a).combined_assessment.final_risk_level =
      specTierTable
        ((generate_combined_risk_assessment now d a).combined_assessment.combined_risk_score) := by
  rw [gen_score, gen_level]
  exact ⟨combined_risk_nonneg d a h3, combined_risk_le_100 d a,
    final_risk_level_mem _, final_risk_level_eq_spec _⟩

/-- Witness for C1 at a concrete input. -/
theorem fuse_score_range_and_tier_table_witness :
    0 ≤ (generate_combined_risk_assessment "t" ⟨1, 9/10⟩
        ⟨⟨80, "HIGH", []⟩⟩).combined_assessment.combined_risk_score ∧
    (generate_combined_risk_assessment "t" ⟨1, 9/10⟩
        ⟨⟨80, "HIGH", []⟩⟩).combined_assessment.combined_risk_score ≤ 100 ∧
    (generate_combined_risk_assessment "t" ⟨1, 9/10⟩
        ⟨⟨80, "HIGH", []⟩⟩).combined_assessment.final_risk_level ∈
      (["LOW", "MODERATE", "HIGH", "EXTREME"] : List String) ∧
    (generate_combined_risk_assessment "t" ⟨1, 9/10⟩
        ⟨⟨80, "HIGH", []⟩⟩).combined_assessment.final_risk_level =
      specTierTable
        ((generate_combined_risk_assessment "t" ⟨1, 9/10⟩
          ⟨⟨80, "HIGH", []⟩⟩).combined_assessment.combined_risk_score) :=
  fuse_score_range_and_tier_table "t" ⟨1, 9/10⟩ ⟨⟨80, "HIGH", []⟩⟩
    (by norm_num) (by norm_num) (by norm_num) (by norm_num)

/-- C4 counterexample: with the wall-clock reading made explicit, two calls of
the fusion on identical detection/astrology inputs but at different clock
readings differ (the `timestamp` field changes), so the output is not
byte-identical across invocations. -/
theorem fuse_not_byte_identical_counterexample :
    generate_combined_risk_assessment "2025-01-01T00:00:00" ⟨0, 0⟩ ⟨⟨0, "UNKNOWN", []⟩⟩ ≠
      generate_combined_risk_assessment "2025-01-01T00:00:01" ⟨0, 0⟩ ⟨⟨0, "UNKNOWN", []⟩⟩ :=
  fun h => absurd (congrArg CombinedAssessment.timestamp h) (by decide)

/-- C4 amended: the fusion is deterministic in everything except the
`timestamp` field, which copies the wall clock; all other output fields are
functions of the two inputs alone. -/
theorem fuse_deterministic_except_timestamp (t1 t2 : String)
    (d : DetectionResults) (a : AstrologyResults) :
    (generate_combined_risk_assessment t1 d a).ai_detection =
        (generate_combined_risk_assessment t2 d a).ai_detection ∧
    (generate_combined_risk_assessment t1 d a).astrology_analysis =
        (generate_combined_risk_assessment t2 d a).astrology_analysis ∧
    (generate_combined_risk_assessment t1 d a).combined_assessment =
        (generate_combined_risk_assessment t2 d a).combined_assessment ∧
    (generate_combined_risk_assessment t1 d a).recommendations =
        (generate_combined_risk_assessment t2 d a).recommendations :=
  ⟨rfl, rfl, rfl, rfl⟩

/-- C5: zero detections give `ai_risk = 0`, and fusion proceeds with the
`(ai + vrs) / 2` two-source weighting; with `vrs_score = 65` the combined
score is 32.5 and the final level MODERATE. -/
theorem zero_detection_fusion (now : String) (d : DetectionResults)
    (a : AstrologyResults) (h : d.total_cyclones = 0) :
    ai_risk d = 0 ∧
    (a.vrs_analysis.vrs_score = 65 →
      (generate_combined_risk_assessment now d a).combined_assessment.combined_risk_score =
          65/2 ∧
      (generate_combined_risk_assessment now d a).combined_assessment.final_risk_level =
          "MODERATE") := by
  have hz : ai_risk d = 0 := by unfold ai_risk; rw [if_neg]; omega
  refine ⟨hz, fun hv => ?_⟩
  have hc : combined_risk d a = 65/2 := by
    unfold combined_risk; rw [hz, hv]; norm_num
  rw [gen_score, gen_level, hc]
  exact ⟨rfl, by norm_num [final_risk_level]⟩

/-- Witness for C5 at a concrete input. -/
theorem zero_detection_fusion_witness :
    ai_risk ⟨0, 0⟩ = 0 ∧
    ((⟨⟨65, "HIGH", []⟩⟩ : AstrologyResults).vrs_analysis.vrs_score = 65 →
      (generate_combined_risk_assessment "t" ⟨0, 0⟩
          ⟨⟨65, "HIGH", []⟩⟩).combined_assessment.combined_risk_score = 65/2 ∧
      (generate_combined_risk_assessment "t" ⟨0, 0⟩
          ⟨⟨65, "HIGH", []⟩⟩).combined_assessment.final_risk_level = "MODERATE") :=
  zero_detection_fusion "t" ⟨0, 0⟩ ⟨⟨65, "HIGH", []⟩⟩ rfl

/-- C10: the legacy AI contribution never exceeds 30 points, so with
`vrs_score ≤ 100` the combined score is at most 65 and the EXTREME level
(requiring ≥ 70) is unreachable from `generate_combined_risk_assessment`. -/
theorem legacy_extreme_unreachable (now : String) (d : DetectionResults)
    (a : AstrologyResults) (h : a.vrs_analysis.vrs_score ≤ 100) :
    ai_risk d ≤ 30 ∧
    (generate_combined_risk_assessment now d a).combined_assessment.combined_risk_score ≤ 65 ∧
    (generate_combined_risk_assessment now d a).combined_assessment.final_risk_level ≠
      "EXTREME" := by
  have hle : combined_risk d a ≤ 65 := by
    unfold combined_risk
    have h30 := ai_risk_le_30 d
    have : (ai_risk d + a.vrs_analysis.vrs_score) / 2 ≤ 65 := by linarith
    exact le_trans (min_le_right _ _) this
  rw [gen_score, gen_level]
  refine ⟨ai_risk_le_30 d, hle, ?_⟩
  unfold final_risk_level
  rw [if_neg (by push_neg; linarith)]
  split_ifs <;> decide

/-- Witness for C10 at a concrete input. -/
theorem legacy_extreme_unreachable_witness :
    ai_risk ⟨3, 95/100⟩ ≤ 30 ∧
    (generate_combined_risk_assessment "t" ⟨3, 95/100⟩
        ⟨⟨100, "EXTREME", []⟩⟩).combined_assessment.combined_risk_score ≤ 65 ∧
    (generate_combined_risk_assessment "t" ⟨3, 95/100⟩
        ⟨⟨100, "EXTREME", []⟩⟩).combined_assessment.final_risk_level ≠ "EXTREME" :=
  legacy_extreme_unreachable "t" ⟨3, 95/100⟩ ⟨⟨100, "EXTREME", []⟩⟩ (by norm_num)

/-- C7 counterexample: when both adapters fail (no detections,
`vrs_score = 0`), the fusion's confidence is `"Medium"`, not the `"Low"` the
claim predicts — the code only ever emits `"High"` or `"Medium"`. -/
theorem both_failed_confidence_counterexample :
    (generate_combined_risk_assessment "t" ⟨0, 0⟩
        ⟨⟨0, "UNKNOWN", []⟩⟩).combined_assessment.confidence = "Medium" ∧
    (generate_combined_risk_assessment "t" ⟨0, 0⟩
        ⟨⟨0, "UNKNOWN", []⟩⟩).combined_assessment.confidence ≠ "Low" := by
  rw [gen_confidence]
  exact ⟨rfl, by decide⟩

/-- C7 amended: the confidence qualifier is `"High"` when at least one
detection is present and `"Medium"` otherwise (also when both sources failed —
`"Low"` is never produced); a both-failed input still yields a complete
assessment with score 0 and level LOW rather than an error. -/
theorem confidence_qualifier_and_both_failed (now : String) (d : DetectionResults)
    (a : AstrologyResults) :
    (generate_combined_risk_assessment now d a).combined_assessment.confidence =
      (if d.total_cyclones > 0 then "High" else "Medium") ∧
    (generate_combined_risk_assessment now d a).combined_assessment.confidence ≠ "Low" ∧
    (d.total_cyclones = 0 → a.vrs_analysis.vrs_score = 0 →
      (generate_combined_risk_assessment now d a).combined_assessment.combined_risk_score =
          0 ∧
      (generate_combined_risk_assessment now d a).combined_assessment.final_risk_level =
          "LOW" ∧
      (generate_combined_risk_assessment now d a).combined_assessment.confidence =
          "Medium") := by
  refine ⟨gen_confidence now d a, ?_, ?_⟩
  · rw [gen_confidence]; split_ifs <;> decide
  · intro h0 hv
    have hz : ai_risk d = 0 := by unfold ai_risk; rw [if_neg]; omega
    have hc : combined_risk d a = 0 := by
      unfold combined_risk; rw [hz, hv]; norm_num
    rw [gen_score, gen_level, gen_confidence, hc]
    exact ⟨rfl, by norm_num [final_risk_level], by rw [if_neg (by omega)]⟩

/-- Witness for C7's amended statement: the both-failed instance. -/
theorem confidence_qualifier_and_both_failed_witness :
    (generate_combined_risk_assessment "t" ⟨0, 0⟩
        ⟨⟨0, "UNKNOWN", []⟩⟩).combined_assessment.combined_risk_score = 0 ∧
    (generate_combined_risk_assessment "t" ⟨0, 0⟩
        ⟨⟨0, "UNKNOWN", []⟩⟩).combined_assessment.final_risk_level = "LOW" ∧
    (generate_combined_risk_assessment "t" ⟨0, 0⟩
        ⟨⟨0, "UNKNOWN", []⟩⟩).combined_assessment.confidence = "Medium" :=
  (confidence_qualifier_and_both_failed "t" ⟨0, 0⟩ ⟨⟨0, "UNKNOWN", []⟩⟩).2.2 rfl rfl

/-- C2: for tiers and thresholds drawn from LOW/MODERATE/HIGH/EXTREME, and a
location whose user exists, `evaluate_alerts` appends exactly one alert for
the analysis iff `tierRank(assessment) ≥ tierRank(threshold)` in the fixed
order LOW < MODERATE < HIGH < EXTREME, and leaves the alerts unchanged
otherwise. -/
theorem alert_decision_matches_tier_rank (users : List String) (alerts : List Alert)
    (loc : MonLocation) (t th : Tier) (aid : String)
    (hthr : loc.alert_threshold = th.toStr)
    (huser : users.contains loc.user_id = true) :
    evaluate_alerts users alerts loc t.toStr aid =
      (if th.rank ≤ t.rank then
        alerts ++ [⟨loc.id, loc.user_id, aid, t.toStr⟩]
      else alerts) := by
  unfold evaluate_alerts trigger_alert shouldTriggerAlert
  rw [hthr]
  cases t <;> cases th <;>
    simp_all [Tier.toStr, Tier.rank, riskLevelRank]

/-- Witness for C2: a HIGH assessment against a MODERATE threshold raises. -/
theorem alert_decision_matches_tier_rank_witness :
    evaluate_alerts ["u1"] [] ⟨"l1", "u1", "Mumbai", "MODERATE"⟩ Tier.HIGH.toStr "a1" =
      (if Tier.MODERATE.rank ≤ Tier.HIGH.rank then
        [] ++ [⟨"l1", "u1", "a1", Tier.HIGH.toStr⟩]
      else []) :=
  alert_decision_matches_tier_rank ["u1"] [] ⟨"l1", "u1", "Mumbai", "MODERATE"⟩
    Tier.HIGH Tier.MODERATE "a1" rfl rfl

/-- C3 counterexample: running `evaluate_alerts` twice on the same analysis id
(HIGH assessment, MODERATE threshold, user present) yields two alert records
referencing that analysis — the evaluator performs no per-analysis
deduplication. -/
theorem duplicate_alert_same_analysis_counterexample :
    ((evaluate_alerts ["u1"]
        (evaluate_alerts ["u1"] [] ⟨"l1", "u1", "Mumbai", "MODERATE"⟩ "HIGH" "a1")
        ⟨"l1", "u1", "Mumbai", "MODERATE"⟩ "HIGH" "a1").countP
      (fun al => al.analysis_id == "a1")) = 2 := by rfl

/-- C3 amended: each evaluator run whose tier meets the location's threshold
(and whose user exists) appends one alert for the analysis, so two runs on
the same analysis add exactly two alerts referencing its id. -/
theorem evaluator_appends_alert_per_run (users : List String) (alerts : List Alert)
    (loc : MonLocation) (cur aid : String)
    (htrig : shouldTriggerAlert cur loc.alert_threshold = true)
    (huser : users.contains loc.user_id = true) :
    ((evaluate_alerts users (evaluate_alerts users alerts loc cur aid) loc cur aid).countP
        (fun al => al.analysis_id == aid)) =
      alerts.countP (fun al => al.analysis_id == aid) + 2 := by
  unfold evaluate_alerts trigger_alert
  simp at huser
  simp [htrig, huser, List.countP_append, List.countP_cons]

/-- Witness for C3's amended statement. -/
theorem evaluator_appends_alert_per_run_witness :
    ((evaluate_alerts ["u1"]
        (evaluate_alerts ["u1"] [] ⟨"l1", "u1", "Mumbai", "MODERATE"⟩ "HIGH" "a1")
        ⟨"l1", "u1", "Mumbai", "MODERATE"⟩ "HIGH" "a1").countP
      (fun al => al.analysis_id == "a1")) =
      ([] : List Alert).countP (fun al => al.analysis_id == "a1") + 2 :=
  evaluator_appends_alert_per_run ["u1"] [] ⟨"l1", "u1", "Mumbai", "MODERATE"⟩
    "HIGH" "a1" rfl rfl

/-- C9 counterexample: a manual check for an active location that is already
mid-check is not rejected — `manual_check_location` consults no in-flight
state, runs the check cycle (flag `true`) and returns success, never the
`"check already in progress"` error the claim predicts. -/
theorem manual_check_runs_despite_inflight_counterexample :
    manual_check_location [⟨"l1", "u1", "Mumbai", "MODERATE"⟩] true "l1" .ok =
      (.success "Successfully checked Mumbai", true) ∧
    (manual_check_location [⟨"l1", "u1", "Mumbai", "MODERATE"⟩] true "l1" .ok).1 ≠
      ManualCheckResult.errorMsg "check already in progress" := by
  constructor
  · rfl
  · decide

/-- C9 amended: `manual_check_location` has no per-location mutual exclusion:
whenever the location is found among the active ones, the check cycle runs,
and the whole result is independent of any concurrent check on the same
location. -/
theorem manual_check_no_mutual_exclusion (locs : List MonLocation)
    (inFlight : Bool) (lid : String) (out : CheckOutcome) (loc : MonLocation)
    (h : locs.find? (fun l => l.id == lid) = some loc) :
    (manual_check_location locs inFlight lid out).2 = true ∧
    manual_check_location locs inFlight lid out =
      manual_check_location locs (!inFlight) lid out := by
  unfold manual_check_location
  rw [h]
  cases out <;> exact ⟨rfl, rfl⟩

/-- Witness for C9's amended statement. -/
theorem manual_check_no_mutual_exclusion_witness :
    (manual_check_location [⟨"l1", "u1", "Mumbai", "MODERATE"⟩] true "l1" .ok).2 = true ∧
    manual_check_location [⟨"l1", "u1", "Mumbai", "MODERATE"⟩] true "l1" .ok =
      manual_check_location [⟨"l1", "u1", "Mumbai", "MODERATE"⟩] (!true) "l1" .ok :=
  manual_check_no_mutual_exclusion [⟨"l1", "u1", "Mumbai", "MODERATE"⟩] true "l1"
    .ok ⟨"l1", "u1", "Mumbai", "MODERATE"⟩ rfl

/-- C8: the registration route rejects every out-of-range coordinate pair with
the 400 `'Invalid coordinates'` response and leaves the locations table
untouched; and every row present after a call was either already there or has
in-range coordinates. -/
theorem register_rejects_out_of_range (locations : List LocationRow)
    (newId uid nm thr : String) :
    (∀ lat lng : ℚ, (lat < -90 ∨ 90 < lat ∨ lng < -180 ∨ 180 < lng) →
      api_add_location locations newId uid nm lat lng thr =
        (.badRequest "Invalid coordinates", locations)) ∧
    (∀ (lat lng : ℚ) (row : LocationRow),
      row ∈ (api_add_location locations newId uid nm lat lng thr).2 →
      row ∈ locations ∨
        (-90 ≤ row.latitude ∧ row.latitude ≤ 90 ∧
         -180 ≤ row.longitude ∧ row.longitude ≤ 180)) := by
  constructor
  · intro lat lng h
    unfold api_add_location
    rw [if_pos]
    rcases h with h | h | h | h
    · exact Or.inl (fun hc => absurd hc.1 (by linarith))
    · exact Or.inl (fun hc => absurd hc.2 (by linarith))
    · exact Or.inr (fun hc => absurd hc.1 (by linarith))
    · exact Or.inr (fun hc => absurd hc.2 (by linarith))
  · intro lat lng row hrow
    unfold api_add_location at hrow
    split_ifs at hrow with hcond
    · exact Or.inl hrow
    · push_neg at hcond
      simp only [db_add_location, List.mem_append, List.mem_singleton] at hrow
      rcases hrow with hmem | heq
      · exact Or.inl hmem
      · right
        rw [heq]
        exact ⟨hcond.1.1, hcond.1.2, hcond.2.1, hcond.2.2⟩

/-- Witness for C8: latitude 200 is rejected and persists nothing. -/
theorem register_rejects_out_of_range_witness :
    api_add_location [] "id1" "u1" "Chennai" 200 10 "MODERATE" =
      (.badRequest "Invalid coordinates", []) :=
  (register_rejects_out_of_range [] "id1" "u1" "Chennai" "MODERATE").1 200 10
    (by norm_num)

lemma gen_enh_score_none (d : EnhDetectionResults) (a : AstrologyResults) :
    (generate_enhanced_combined_assessment d a none).combined_risk_score =
      min 100 ((calculate_base_ai_risk d + a.vrs_analysis.vrs_score) / 2) := rfl

lemma gen_enh_level_none (d : EnhDetectionResults) (a : AstrologyResults) :
    (generate_enhanced_combined_assessment d a none).final_risk_level =
      (enhanced_level_ladder
        (min 100 ((calculate_base_ai_risk d + a.vrs_analysis.vrs_score) / 2))).1 := rfl

/-- C6 counterexample: with an EXCELLENT-quality detection (`ai_risk = 50`)
and `vrs_score = 80` the enhanced fusion does score `min(100, 65) = 65`, but
its level ladder maps 65 to VERY_HIGH (the 60–75 band), not to the HIGH the
claim states. -/
theorem excellent_vrs80_tier_counterexample :
    (generate_enhanced_combined_assessment ⟨1, 9/10, "EXCELLENT"⟩
        ⟨⟨80, "HIGH", []⟩⟩ none).combined_risk_score = 65 ∧
    (generate_enhanced_combined_assessment ⟨1, 9/10, "EXCELLENT"⟩
        ⟨⟨80, "HIGH", []⟩⟩ none).final_risk_level = "VERY_HIGH" ∧
    (generate_enhanced_combined_assessment ⟨1, 9/10, "EXCELLENT"⟩
        ⟨⟨80, "HIGH", []⟩⟩ none).final_risk_level ≠ "HIGH" := by
  have hai : calculate_base_ai_risk ⟨1, 9/10, "EXCELLENT"⟩ = 50 := by
    norm_num [calculate_base_ai_risk]
  have hmin : min (100 : ℚ)
      ((calculate_base_ai_risk ⟨1, 9/10, "EXCELLENT"⟩ +
        (⟨⟨80, "HIGH", []⟩⟩ : AstrologyResults).vrs_analysis.vrs_score) / 2) = 65 := by
    rw [hai]; norm_num
  rw [gen_enh_score_none, gen_enh_level_none, hmin]
  have hlvl : (enhanced_level_ladder (65 : ℚ)).1 = "VERY_HIGH" := by
    norm_num [enhanced_level_ladder]
  rw [hlvl]
  exact ⟨rfl, rfl, by decide⟩

/-- C6 amended: for an EXCELLENT-quality detection with at least one cyclone
and `vrs_score = 80` (no valid enhanced meteorological input), the enhanced
fusion yields `ai_risk = 50`, combined score `min(100, 65) = 65`, and final
level VERY_HIGH — one band above the HIGH of the claim. -/
theorem excellent_vrs80_enhanced_assessment (d : EnhDetectionResults)
    (a : AstrologyResults) (h1 : d.total_cyclones ≠ 0)
    (h2 : d.detection_quality = "EXCELLENT") (h3 : a.vrs_analysis.vrs_score = 80) :
    calculate_base_ai_risk d = 50 ∧
    (generate_enhanced_combined_assessment d a none).combined_risk_score = 65 ∧
    (generate_enhanced_combined_assessment d a none).final_risk_level =
      "VERY_HIGH" := by
  have hai : calculate_base_ai_risk d = 50 := by
    unfold calculate_base_ai_risk
    rw [if_neg h1, if_pos h2]
  have hmin : min (100 : ℚ)
      ((calculate_base_ai_risk d + a.vrs_analysis.vrs_score) / 2) = 65 := by
    rw [hai, h3]; norm_num
  rw [gen_enh_score_none, gen_enh_level_none, hmin]
  exact ⟨hai, rfl, by norm_num [enhanced_level_ladder]⟩

/-- Witness for C6's amended statement. -/
theorem excellent_vrs80_enhanced_assessment_witness :
    calculate_base_ai_risk ⟨1, 9/10, "EXCELLENT"⟩ = 50 ∧
    (generate_enhanced_combined_assessment ⟨1, 9/10, "EXCELLENT"⟩
        ⟨⟨80, "HIGH", []⟩⟩ none).combined_risk_score = 65 ∧
    (generate_enhanced_combined_assessment ⟨1, 9/10, "EXCELLENT"⟩
        ⟨⟨80, "HIGH", []⟩⟩ none).final_risk_level = "VERY_HIGH" :=
  excellent_vrs80_enhanced_assessment ⟨1, 9/10, "EXCELLENT"⟩ ⟨⟨80, "HIGH", []⟩⟩
    (by decide) rfl rfl

end Cyclone
